import Mathlib

set_option maxRecDepth 40000

/-!
Verification of the github_webhook_filter server against its specification.

The repository contains two versions of the request pipeline:
`src/github_webhook_filter_server.go` and a second, unnamed source file
(`src/unnamed/part_000`).  Both are embedded below as pure functions over an
explicit request/response model.  All Go strings and byte slices are modelled
as `List Nat` byte sequences; 32-bit machine arithmetic is modelled by `Nat`
with explicit reduction modulo `2 ^ 32`.
-/

/-- Bytes of an ASCII string literal. -/
def ascii (s : String) : List Nat := s.data.map Char.toNat

/-- Exclusive or of 32-bit words.  All words fed into it are below `2 ^ 32`, and exclusive or
never exceeds its operands' bit width, so no truncation is required. -/
def xor32 (a b : Nat) : Nat := a ^^^ b

/-- Bitwise and of 32-bit words. -/
def and32 (a b : Nat) : Nat := a &&& b

/-- Bitwise complement of a word below `2 ^ 32`. -/
def not32 (a : Nat) : Nat := 4294967295 - a % 4294967296

/-- Bytewise exclusive or (used for HMAC key padding and constant-time compare). -/
def xor8 (a b : Nat) : Nat := a ^^^ b

/-- Bytewise or (used by the constant-time compare accumulator). -/
def or8 (a b : Nat) : Nat := a ||| b

/-- Right rotation of a 32-bit word, expressed arithmetically. -/
def rotr (n x : Nat) : Nat := (x / 2 ^ n + x % 2 ^ n * 2 ^ (32 - n)) % 4294967296

/-- Logical right shift. -/
def shr (n x : Nat) : Nat := x / 2 ^ n

/-- SHA-256 small sigma 0. -/
def ssig0 (x : Nat) : Nat := xor32 (xor32 (rotr 7 x) (rotr 18 x)) (shr 3 x)

/-- SHA-256 small sigma 1. -/
def ssig1 (x : Nat) : Nat := xor32 (xor32 (rotr 17 x) (rotr 19 x)) (shr 10 x)

/-- SHA-256 big sigma 0. -/
def bsig0 (x : Nat) : Nat := xor32 (xor32 (rotr 2 x) (rotr 13 x)) (rotr 22 x)

/-- SHA-256 big sigma 1. -/
def bsig1 (x : Nat) : Nat := xor32 (xor32 (rotr 6 x) (rotr 11 x)) (rotr 25 x)

/-- SHA-256 choice function. -/
def chf (e f g : Nat) : Nat := xor32 (and32 e f) (and32 (not32 e) g)

/-- SHA-256 majority function. -/
def majf (a b c : Nat) : Nat := xor32 (xor32 (and32 a b) (and32 a c)) (and32 b c)

/-- SHA-256 round constants (FIPS 180-4, written in decimal). -/
def sha256K : List Nat :=
  [1116352408, 1899447441, 3049323471, 3921009573,
   961987163, 1508970993, 2453635748, 2870763221,
   3624381080, 310598401, 607225278, 1426881987,
   1925078388, 2162078206, 2614888103, 3248222580,
   3835390401, 4022224774, 264347078, 604807628,
   770255983, 1249150122, 1555081692, 1996064986,
   2554220882, 2821834349, 2952996808, 3210313671,
   3336571891, 3584528711, 113926993, 338241895,
   666307205, 773529912, 1294757372, 1396182291,
   1695183700, 1986661051, 2177026350, 2456956037,
   2730485921, 2820302411, 3259730800, 3345764771,
   3516065817, 3600352804, 4094571909, 275423344,
   430227734, 506948616, 659060556, 883997877,
   958139571, 1322822218, 1537002063, 1747873779,
   1955562222, 2024104815, 2227730452, 2361852424,
   2428436474, 2756734187, 3204031479, 3329325298]

/-- Working state of the SHA-256 compression function (eight 32-bit words). -/
structure Hash8 where
  a : Nat
  b : Nat
  c : Nat
  d : Nat
  e : Nat
  f : Nat
  g : Nat
  h : Nat
deriving DecidableEq, Repr

/-- SHA-256 initial hash value (FIPS 180-4, written in decimal). -/
def sha256Init : Hash8 :=
  ⟨1779033703, 3144134277, 1013904242, 2773480762,
   1359893119, 2600822924, 528734635, 1541459225⟩

/-- Merkle–Damgård padding: append 0x80, zeros, and the 64-bit big-endian bit length. -/
def sha256Pad (msg : List Nat) : List Nat :=
  let len := msg.length
  let z := (119 - len % 64) % 64
  let bits := 8 * len
  msg ++ [0x80] ++ List.replicate z 0 ++
    [bits / 2 ^ 56 % 256, bits / 2 ^ 48 % 256, bits / 2 ^ 40 % 256, bits / 2 ^ 32 % 256,
     bits / 2 ^ 24 % 256, bits / 2 ^ 16 % 256, bits / 2 ^ 8 % 256, bits % 256]

/-- Split a padded message into 64-byte blocks (fuel-indexed to stay structural). -/
def toBlocksAux : Nat → List Nat → List (List Nat)
  | _, [] => []
  | 0, _ => []
  | fuel + 1, l => l.take 64 :: toBlocksAux fuel (l.drop 64)

/-- Split a padded message into 64-byte blocks. -/
def toBlocks (l : List Nat) : List (List Nat) := toBlocksAux l.length l

/-- Group bytes into big-endian 32-bit words. -/
def toWords : List Nat → List Nat
  | a :: b :: c :: d :: rest => (((a * 256 + b) * 256 + c) * 256 + d) :: toWords rest
  | _ => []

/-- Extend the message schedule; `w` holds the words produced so far, most recent first. -/
def extendSchedule : Nat → List Nat → List Nat
  | 0, w => w
  | k + 1, w =>
      let wt := (ssig1 (w.getD 1 0) + w.getD 6 0 + ssig0 (w.getD 14 0) + w.getD 15 0) % 4294967296
      extendSchedule k (wt :: w)

/-- One SHA-256 round, consuming a (round constant, schedule word) pair. -/
def sha256Round (st : Hash8) (kw : Nat × Nat) : Hash8 :=
  let t1 := (st.h + bsig1 st.e + chf st.e st.f st.g + kw.1 + kw.2) % 4294967296
  let t2 := (bsig0 st.a + majf st.a st.b st.c) % 4294967296
  ⟨(t1 + t2) % 4294967296, st.a, st.b, st.c, (st.d + t1) % 4294967296, st.e, st.f, st.g⟩

/-- SHA-256 compression of one 64-byte block. -/
def compressBlock (hv : Hash8) (block : List Nat) : Hash8 :=
  let w := (extendSchedule 48 (toWords block).reverse).reverse
  let st := (sha256K.zip w).foldl sha256Round hv
  ⟨(hv.a + st.a) % 4294967296, (hv.b + st.b) % 4294967296, (hv.c + st.c) % 4294967296,
   (hv.d + st.d) % 4294967296, (hv.e + st.e) % 4294967296, (hv.f + st.f) % 4294967296,
   (hv.g + st.g) % 4294967296, (hv.h + st.h) % 4294967296⟩

/-- Big-endian bytes of a 32-bit word. -/
def be32 (x : Nat) : List Nat := [x / 16777216 % 256, x / 65536 % 256, x / 256 % 256, x % 256]

/-- SHA-256 of a byte sequence. -/
def sha256 (msg : List Nat) : List Nat :=
  let hv := (toBlocks (sha256Pad msg)).foldl compressBlock sha256Init
  be32 hv.a ++ be32 hv.b ++ be32 hv.c ++ be32 hv.d ++ be32 hv.e ++ be32 hv.f ++ be32 hv.g ++ be32 hv.h

/-- HMAC-SHA256 with the given key, as in Go's crypto/hmac with crypto/sha256. -/
def hmacSha256 (key msg : List Nat) : List Nat :=
  let k0 := if 64 < key.length then sha256 key else key
  let k1 := k0 ++ List.replicate (64 - k0.length) 0
  sha256 ((k1.map (fun b => xor8 b 92)) ++ sha256 ((k1.map (fun b => xor8 b 54)) ++ msg))

/-- Lowercase hexadecimal digit byte, as produced by Go's encoding/hex. -/
def hexDigit (n : Nat) : Nat := if n < 10 then 48 + n else 87 + n

/-- Lowercase hex encoding of a byte sequence (bytes of the encoded string). -/
def hexEncode (bytes : List Nat) : List Nat :=
  bytes.flatMap (fun b => [hexDigit (b / 16), hexDigit (b % 16)])

/-- Go's crypto/subtle ConstantTimeCompare, used by hmac.Equal: length check, then an
or-accumulation of bytewise xors over the entire inputs, with no short circuit. -/
def constantTimeCompare (x y : List Nat) : Bool :=
  if x.length = y.length then ((x.zipWith xor8 y).foldl or8 0) == 0 else false

/-- The accepted value of the X-Hub-Signature-256 header, as computed by `verifySignature`
in both source files: "sha256=" followed by the lowercase hex HMAC-SHA256 digest. -/
def correctSig (secret body : List Nat) : List Nat :=
  ascii "sha256=" ++ hexEncode (hmacSha256 secret body)

/-- Embedding of `verifySignature` (identical in both source files): recompute the tagged
hex digest over the raw body and compare with hmac.Equal (constant-time comparison). -/
def verifySignature (secret : List Nat) (headerSignature : List Nat) (body : List Nat) : Bool :=
  constantTimeCompare (ascii "sha256=" ++ hexEncode (hmacSha256 secret body)) headerSignature

/-!
JSON model.  `json.Unmarshal(requestBody, &event)` with

    type PackageEvent struct {
        Package struct {
            PackageType string `json:"package_type"`
        } `json:"package"`
    }

parses the full body as JSON (failing on any syntax error or trailing data) and then
decodes only the `package.package_type` field, ignoring all unknown fields.  The byte
level parser below follows the JSON grammar accepted by encoding/json.
-/

/-- JSON values.  Number payloads are irrelevant to the decoder, so they are dropped. -/
inductive Json where
  | null
  | bool (b : Bool)
  | num
  | str (s : List Nat)
  | arr (xs : List Json)
  | obj (fields : List (List Nat × Json))

/-- JSON insignificant whitespace bytes. -/
def isWs (b : Nat) : Bool := b == 32 || b == 9 || b == 10 || b == 13

/-- Drop leading JSON whitespace. -/
def skipWs : List Nat → List Nat
  | b :: rest => if isWs b then skipWs rest else b :: rest
  | [] => []

/-- Value of a hexadecimal digit byte, if it is one. -/
def hexVal (b : Nat) : Option Nat :=
  if 48 ≤ b ∧ b ≤ 57 then some (b - 48)
  else if 97 ≤ b ∧ b ≤ 102 then some (b - 87)
  else if 65 ≤ b ∧ b ≤ 70 then some (b - 55)
  else none

/-- UTF-8 encoding of a code point (for decoded escape sequences). -/
def utf8Encode (c : Nat) : List Nat :=
  if c < 128 then [c]
  else if c < 2048 then [192 + c / 64, 128 + c % 64]
  else if c < 65536 then [224 + c / 4096, 128 + c / 64 % 64, 128 + c % 64]
  else [240 + c / 262144, 128 + c / 4096 % 64, 128 + c / 64 % 64, 128 + c % 64]

/-- Body of a JSON string, after the opening quote: returns the decoded content bytes
and the remaining input.  Escape sequences are decoded; an unescaped control byte or
invalid escape is a syntax error.  A `\u` escape denoting a surrogate half decodes to
U+FFFD as in encoding/json. -/
def parseStringBody : List Nat → Option (List Nat × List Nat)
  | [] => none
  | 34 :: rest => some ([], rest)
  | 92 :: 34 :: rest => (parseStringBody rest).map (fun pr => (34 :: pr.1, pr.2))
  | 92 :: 92 :: rest => (parseStringBody rest).map (fun pr => (92 :: pr.1, pr.2))
  | 92 :: 47 :: rest => (parseStringBody rest).map (fun pr => (47 :: pr.1, pr.2))
  | 92 :: 98 :: rest => (parseStringBody rest).map (fun pr => (8 :: pr.1, pr.2))
  | 92 :: 102 :: rest => (parseStringBody rest).map (fun pr => (12 :: pr.1, pr.2))
  | 92 :: 110 :: rest => (parseStringBody rest).map (fun pr => (10 :: pr.1, pr.2))
  | 92 :: 114 :: rest => (parseStringBody rest).map (fun pr => (13 :: pr.1, pr.2))
  | 92 :: 116 :: rest => (parseStringBody rest).map (fun pr => (9 :: pr.1, pr.2))
  | 92 :: 117 :: h1 :: h2 :: h3 :: h4 :: rest =>
    (match hexVal h1, hexVal h2, hexVal h3, hexVal h4 with
     | some v1, some v2, some v3, some v4 =>
       let cp := ((v1 * 16 + v2) * 16 + v3) * 16 + v4
       let cp2 := if 55296 ≤ cp ∧ cp < 57344 then 65533 else cp
       (parseStringBody rest).map (fun pr => (utf8Encode cp2 ++ pr.1, pr.2))
     | _, _, _, _ => none)
  | 92 :: _ => none
  | b :: rest =>
    if b < 32 then none
    else (parseStringBody rest).map (fun pr => (b :: pr.1, pr.2))

/-- Take a maximal run of decimal digit bytes. -/
def takeDigits : List Nat → List Nat × List Nat
  | b :: rest =>
    if 48 ≤ b ∧ b ≤ 57 then
      let pr := takeDigits rest
      (b :: pr.1, pr.2)
    else ([], b :: rest)
  | [] => ([], [])

/-- Optional exponent part of a JSON number; returns the remaining input. -/
def parseExpPart : List Nat → Option (List Nat)
  | b :: rest =>
    if b = 101 ∨ b = 69 then
      let rest2 := match rest with
        | s :: r => if s = 43 ∨ s = 45 then r else s :: r
        | [] => []
      match rest2 with
      | d :: r2 => if 48 ≤ d ∧ d ≤ 57 then some (takeDigits (d :: r2)).2 else none
      | [] => none
    else some (b :: rest)
  | [] => some []

/-- Optional fraction part of a JSON number, followed by the optional exponent. -/
def parseFracPart : List Nat → Option (List Nat)
  | 46 :: rest =>
    (match rest with
     | d :: r => if 48 ≤ d ∧ d ≤ 57 then parseExpPart (takeDigits (d :: r)).2 else none
     | [] => none)
  | other => parseExpPart other

/-- Integer part of a JSON number after an optional minus sign: `0` or a nonzero
digit followed by digits. -/
def parseNumAfterSign : List Nat → Option (List Nat)
  | 48 :: rest => parseFracPart rest
  | b :: rest => if 49 ≤ b ∧ b ≤ 57 then parseFracPart (takeDigits rest).2 else none
  | [] => none

/-- A JSON number starting at the given input; returns the remaining input. -/
def parseNumBytes : List Nat → Option (List Nat)
  | 45 :: rest => parseNumAfterSign rest
  | other => parseNumAfterSign other

mutual

/-- A JSON value, preceded by optional whitespace.  The fuel argument bounds recursion
depth; each unit of fuel spent corresponds to at least one byte of input consumed, so
`length input + 1` fuel always suffices. -/
def parseValue : Nat → List Nat → Option (Json × List Nat)
  | 0, _ => none
  | fuel + 1, input =>
    match skipWs input with
    | [] => none
    | b :: rest =>
      if b = 110 then
        match rest with
        | 117 :: 108 :: 108 :: r => some (.null, r)
        | _ => none
      else if b = 116 then
        match rest with
        | 114 :: 117 :: 101 :: r => some (.bool true, r)
        | _ => none
      else if b = 102 then
        match rest with
        | 97 :: 108 :: 115 :: 101 :: r => some (.bool false, r)
        | _ => none
      else if b = 34 then
        match parseStringBody rest with
        | some (s, r) => some (.str s, r)
        | none => none
      else if b = 123 then
        match skipWs rest with
        | 125 :: r => some (.obj [], r)
        | _ => parseMembers fuel [] rest
      else if b = 91 then
        match skipWs rest with
        | 93 :: r => some (.arr [], r)
        | _ => parseElems fuel [] rest
      else if b = 45 ∨ (48 ≤ b ∧ b ≤ 57) then
        match parseNumBytes (b :: rest) with
        | some r => some (.num, r)
        | none => none
      else none

/-- Members of a JSON object after the opening brace (at least one member). -/
def parseMembers : Nat → List (List Nat × Json) → List Nat → Option (Json × List Nat)
  | 0, _, _ => none
  | fuel + 1, acc, input =>
    match skipWs input with
    | 34 :: rest =>
      (match parseStringBody rest with
       | some (key, r1) =>
         (match skipWs r1 with
          | 58 :: r2 =>
            (match parseValue fuel r2 with
             | some (v, r3) =>
               (match skipWs r3 with
                | 44 :: r4 => parseMembers fuel (acc ++ [(key, v)]) r4
                | 125 :: r4 => some (.obj (acc ++ [(key, v)]), r4)
                | _ => none)
             | none => none)
          | _ => none)
       | none => none)
    | _ => none

/-- Elements of a JSON array after the opening bracket (at least one element). -/
def parseElems : Nat → List Json → List Nat → Option (Json × List Nat)
  | 0, _, _ => none
  | fuel + 1, acc, input =>
    match parseValue fuel input with
    | some (v, r1) =>
      (match skipWs r1 with
       | 44 :: r2 => parseElems fuel (acc ++ [v]) r2
       | 93 :: r2 => some (.arr (acc ++ [v]), r2)
       | _ => none)
    | none => none

end

/-- Parse a whole byte sequence as one JSON value, returning it and the remaining input. -/
def parseJsonValue (body : List Nat) : Option (Json × List Nat) :=
  parseValue (body.length + 1) body

/-- The decoded view of the body used by both handlers. -/
structure PackageEvent where
  packageType : List Nat
deriving DecidableEq, Repr

instance {ε α : Type} [DecidableEq ε] [DecidableEq α] : DecidableEq (Except ε α) := fun a b =>
  match a, b with
  | .ok x, .ok y =>
    if h : x = y then isTrue (by rw [h]) else isFalse (fun hc => h (Except.ok.inj hc))
  | .error x, .error y =>
    if h : x = y then isTrue (by rw [h]) else isFalse (fun hc => h (Except.error.inj hc))
  | .ok _, .error _ => isFalse (fun hc => Except.noConfusion hc)
  | .error _, .ok _ => isFalse (fun hc => Except.noConfusion hc)

/-- ASCII case folding of a byte, as used by encoding/json field-name matching. -/
def foldByte (b : Nat) : Nat := if 65 ≤ b ∧ b ≤ 90 then b + 32 else b

/-- Case-insensitive JSON key comparison against a struct field tag. -/
def eqFold (a b : List Nat) : Bool := a.map foldByte == b.map foldByte

/-- Decode a JSON value into a string-typed struct field: a string replaces the current
value, null leaves it unchanged, anything else is an unmarshalling type error. -/
def decodeStringField : Json → List Nat → Except (List Nat) (List Nat)
  | .str s, _ => .ok s
  | .null, cur => .ok cur
  | _, _ => .error (ascii "cannot unmarshal value into field of string type")

/-- Decode a JSON value into the inner anonymous struct, updating the current
`package_type` value: object fields matching `package_type` (case-insensitively,
later occurrences overriding earlier ones) are decoded, all others ignored. -/
def decodePackage : Json → List Nat → Except (List Nat) (List Nat)
  | .null, cur => .ok cur
  | .obj fields, cur =>
    fields.foldl
      (fun (acc : Except (List Nat) (List Nat)) kv =>
        match acc with
        | .error e => .error e
        | .ok c => if eqFold kv.1 (ascii "package_type") then decodeStringField kv.2 c else .ok c)
      (.ok cur)
  | _, _ => .error (ascii "cannot unmarshal value into field Package of object type")

/-- Decode a parsed JSON value into a `PackageEvent`: fields matching `package`
are decoded into the inner struct, all others ignored; a non-object non-null
top-level value is an unmarshalling type error. -/
def decodeTopLevel : Json → Except (List Nat) PackageEvent
  | .null => .ok ⟨[]⟩
  | .obj fields =>
    (fields.foldl
      (fun (acc : Except (List Nat) (List Nat)) kv =>
        match acc with
        | .error e => .error e
        | .ok c => if eqFold kv.1 (ascii "package") then decodePackage kv.2 c else .ok c)
      (.ok ([] : List Nat))).map (fun pt => ⟨pt⟩)
  | _ => .error (ascii "cannot unmarshal value into PackageEvent of object type")

/-- Embedding of `json.Unmarshal(requestBody, &event)`: parse the whole body (trailing
whitespace only), then extract `package.package_type`. -/
def decodePackageEvent (body : List Nat) : Except (List Nat) PackageEvent :=
  match parseJsonValue body with
  | none => .error (ascii "invalid JSON syntax")
  | some (v, rest) =>
    if skipWs rest = [] then decodeTopLevel v
    else .error (ascii "invalid character after top-level value")

/-!
Request pipeline model.  Headers are an association list of (canonical name, value)
byte strings; `headersGet` models `http.Header.Get` (first value, empty if absent).
A response is modelled as the sequence of operations the handler performs on the
`http.ResponseWriter`, together with the outbound forward decision, the log lines the
handler emits on paths where logging is observably specified, and whether the handler
panics (as it does when it dereferences the nil response after a transport error).
-/

/-- Process-wide read-only configuration: shared secret and relay target URL. -/
structure Config where
  webhookSecret : List Nat
  relayURL : List Nat
deriving DecidableEq, Repr

/-- An inbound HTTP request: method, headers, raw body bytes. -/
structure Request where
  method : List Nat
  headers : List (List Nat × List Nat)
  body : List Nat
deriving DecidableEq, Repr

/-- Embedding of `http.Header.Get`: first value for the key, or empty. -/
def headersGet (hs : List (List Nat × List Nat)) (k : List Nat) : List Nat :=
  ((hs.find? (fun kv => kv.1 == k)).map (fun kv => kv.2)).getD []

/-- One operation performed on the http.ResponseWriter. -/
inductive RW where
  | setHeader (name value : List Nat)
  | addHeader (name value : List Nat)
  | writeHeader (code : Nat)
  | write (data : List Nat)
deriving DecidableEq, Repr

/-- Operations performed by Go's `http.Error`: set the content-type headers, write the
status code, then write the message followed by a newline. -/
def httpError (msg : List Nat) (code : Nat) : List RW :=
  [.setHeader (ascii "Content-Type") (ascii "text/plain; charset=utf-8"),
   .setHeader (ascii "X-Content-Type-Options") (ascii "nosniff"),
   .writeHeader code,
   .write (msg ++ [10])]

/-- The outbound request issued to the relay target. -/
structure Outbound where
  method : List Nat
  url : List Nat
  headers : List (List Nat × List Nat)
  body : List Nat
deriving DecidableEq, Repr

/-- Observable outcome of one handler invocation. -/
structure HandlerResult where
  rw : List RW
  forwarded : Option Outbound
  logs : List (List Nat)
  panicked : Bool
deriving DecidableEq, Repr

/-- Behaviour of the downstream relay for the forwarded call, an oracle input of the
model: either `client.Do` returns a transport error (with the error text), or it
returns a response with the given status code. -/
inductive DownstreamResult where
  | transportError (errText : List Nat)
  | response (statusCode : Nat)
deriving DecidableEq, Repr

/-- Embedding of `respondError` (identical in both source files): log the message and
call `http.Error` with it. -/
def respondError (msg : List Nat) (code : Nat) : HandlerResult :=
  ⟨httpError msg code, none, [msg], false⟩

/-- Embedding of `logRequest` (identical in both source files): returns the error
string when the delivery id or the event type header is missing, empty otherwise. -/
def logRequest (headers : List (List Nat × List Nat)) : List Nat :=
  let requestId := headersGet headers (ascii "X-GitHub-Delivery")
  let eventType := headersGet headers (ascii "X-GitHub-Event")
  if requestId = [] ∨ eventType = [] then
    ascii "Either missing requestId: (" ++ requestId ++ ascii ") or eventType: (" ++
      eventType ++ ascii ") and will not process request further"
  else []

/-- The hardcoded accepted category. -/
def containerType : List Nat := ascii "CONTAINER"

/-- The filtered-out diagnostic message built by both handleRequest versions. -/
def filteredMsg (packageType : List Nat) : List Nat :=
  ascii "Filtered out package_type " ++ packageType ++ ascii "! No forward to relay"

/-- The fixed headers of the outbound request in both source files. -/
def outboundHeaders : List (List Nat × List Nat) :=
  [(ascii "User-Agent", ascii "Go WebHook Filter"), (ascii "Content-Type", ascii "application/json")]

/-- The outbound POST built by both handleRequest versions: relay URL, fixed
User-Agent and Content-Type, and the raw request body. -/
def mkOutbound (cfg : Config) (requestBody : List Nat) : Outbound :=
  ⟨ascii "POST", cfg.relayURL, outboundHeaders, requestBody⟩

/-- Decimal digits of a natural number, as bytes. -/
def natBytes (n : Nat) : List Nat := ascii (toString n)

/-- The success body written by the unnamed source file on the forwarded path. -/
def successBody : List Nat :=
  ascii "package_type:CONTAINER passed the filter on Github Webhook Filter server hosted at onrender.com. Forwarded to relay."

/-- The bad-gateway message naming the downstream status code (both source files). -/
def relayStatusMsg (statusCode : Nat) : List Nat :=
  ascii "Error - Relay returned status: " ++ natBytes statusCode

/-- Embedding of `handleRequest` from the unnamed source file (src/unnamed/part_000):
signature check, JSON decode, category filter with a 204 No Content plus `Message`
header, then the forward.  After a transport error the source calls `respondError`
without returning and then evaluates `httpResponse.Body` / `httpResponse.StatusCode`
on the nil response, which panics; the model records this as `panicked := true`.
On a downstream response, a non-2xx status gets an `http.Error` 502 write, and in
every case the success body and a final 200 status are then written. -/
def handleRequestPart (cfg : Config) (req : Request) (ds : DownstreamResult) : HandlerResult :=
  let requestBody := req.body
  let headerSignature := headersGet req.headers (ascii "X-Hub-Signature-256")
  if verifySignature cfg.webhookSecret headerSignature requestBody = true then
    match decodePackageEvent requestBody with
    | .error e => respondError (ascii "Failed to parse JSON: " ++ e) 400
    | .ok event =>
      if event.packageType = containerType then
        match ds with
        | .transportError errText =>
          let logLine := ascii "Error sending request: " ++ errText ++ [10]
          ⟨httpError logLine 502, some (mkOutbound cfg requestBody), [logLine], true⟩
        | .response statusCode =>
          let errPart :=
            if statusCode < 200 ∨ 300 ≤ statusCode then httpError (relayStatusMsg statusCode) 502
            else []
          ⟨errPart ++ [.write successBody, .writeHeader 200],
           some (mkOutbound cfg requestBody), [], false⟩
      else
        let logLine := filteredMsg event.packageType
        ⟨[.addHeader (ascii "Message") logLine, .writeHeader 204], none, [logLine], false⟩
  else respondError (ascii "Invalid Signature") 401

/-- Log lines produced by `handleHeadAndGet`: one per header name/value pair. -/
def headerLogLines (hs : List (List Nat × List Nat)) : List (List Nat) :=
  hs.map (fun kv => ascii "Header: " ++ kv.1 ++ ascii " = " ++ kv.2)

/-- Embedding of `handler` from the unnamed source file: HEAD and GET requests go to
`handleHeadAndGet` (log every header pair, respond 200); otherwise the delivery and
event headers are checked and `handleRequest` runs. -/
def handlerPart (cfg : Config) (req : Request) (ds : DownstreamResult) : HandlerResult :=
  if req.method = ascii "HEAD" ∨ req.method = ascii "GET" then
    ⟨[.writeHeader 200], none, headerLogLines req.headers, false⟩
  else
    let err := logRequest req.headers
    if err = [] then handleRequestPart cfg req ds
    else respondError err 400

/-- Embedding of `handleRequest` from src/github_webhook_filter_server.go.  It differs
from the unnamed version on two paths: a filtered-out category answers with
`respondError` 400 instead of 204 plus `Message` header, and the forwarded path writes
no success body before the final 200 status. -/
def handleRequestGo (cfg : Config) (req : Request) (ds : DownstreamResult) : HandlerResult :=
  let requestBody := req.body
  let headerSignature := headersGet req.headers (ascii "X-Hub-Signature-256")
  if verifySignature cfg.webhookSecret headerSignature requestBody = true then
    match decodePackageEvent requestBody with
    | .error e => respondError (ascii "Failed to parse JSON: " ++ e) 400
    | .ok event =>
      if event.packageType = containerType then
        match ds with
        | .transportError errText =>
          let logLine := ascii "Error sending request: " ++ errText ++ [10]
          ⟨httpError logLine 502, some (mkOutbound cfg requestBody), [logLine], true⟩
        | .response statusCode =>
          let errPart :=
            if statusCode < 200 ∨ 300 ≤ statusCode then httpError (relayStatusMsg statusCode) 502
            else []
          ⟨errPart ++ [.writeHeader 200], some (mkOutbound cfg requestBody), [], false⟩
      else respondError (filteredMsg event.packageType) 400
  else respondError (ascii "Invalid Signature") 401

/-- Embedding of `handler` from src/github_webhook_filter_server.go: no method branch;
every request goes through the header check and then `handleRequest`. -/
def handlerGo (cfg : Config) (req : Request) (ds : DownstreamResult) : HandlerResult :=
  let err := logRequest req.headers
  if err = [] then handleRequestGo cfg req ds
  else respondError err 400

/-- Concrete fixtures used by the closed witnesses below. -/
def secretW : List Nat := ascii "s3cr3t"

/-- A relay URL fixture. -/
def relayW : List Nat := ascii "https://relay.example/hook"

/-- A configuration fixture. -/
def cfgW : Config := ⟨secretW, relayW⟩

/-- A CONTAINER-category body fixture. -/
def bodyContainer : List Nat := ascii "\x7b\"package\":\x7b\"package_type\":\"CONTAINER\"\x7d\x7d"

/-- The correct signature header value for `bodyContainer` under `secretW`. -/
def sigContainer : List Nat :=
  ascii "sha256=20cdc7e1c93bec556adcbe983d2feb3caf8a26377694bcbbded2b02ecc9c0b4a"

/-- The value of `sigContainer` with a single bit of its last byte flipped. -/
def sigContainerFlip : List Nat :=
  ascii "sha256=20cdc7e1c93bec556adcbe983d2feb3caf8a26377694bcbbded2b02ecc9c0b4c"

/-- The value of `bodyContainer` with a single bit of its last byte flipped. -/
def bodyContainerFlip : List Nat := ascii "\x7b\"package\":\x7b\"package_type\":\"CONTAINER\"\x7d|"

/-- A body fixture of a non-CONTAINER category. -/
def bodyMaven : List Nat := ascii "\x7b\"package\":\x7b\"package_type\":\"MAVEN\"\x7d\x7d"

/-- The correct signature header value for `bodyMaven` under `secretW`. -/
def sigMaven : List Nat :=
  ascii "sha256=15a11fe8eddc2f976db8e5f244af86baead59e566ae1f596c03b230d4326a866"

/-- A body fixture that is not JSON. -/
def bodyNotJson : List Nat := ascii "not json"

/-- The correct signature header value for `bodyNotJson` under `secretW`. -/
def sigNotJson : List Nat :=
  ascii "sha256=2719da08dcae9f99608d08f7cabf203623a6b53b5ff57387f38b7aea5e2f79c8"

/-- The GitHub webhook headers of a well-formed delivery with the given signature value. -/
def ghHeaders (sig : List Nat) : List (List Nat × List Nat) :=
  [(ascii "X-GitHub-Delivery", ascii "abc"), (ascii "X-GitHub-Event", ascii "package"),
   (ascii "X-Hub-Signature-256", sig)]

/-- A POST request fixture with the given signature header value and body. -/
def mkPost (sig body : List Nat) : Request := ⟨ascii "POST", ghHeaders sig, body⟩

/-- A POST fixture missing the X-GitHub-Delivery header but carrying a valid signature. -/
def reqMissing : Request :=
  ⟨ascii "POST",
   [(ascii "X-GitHub-Event", ascii "package"), (ascii "X-Hub-Signature-256", sigContainer)],
   bodyContainer⟩

/-- A POST fixture with JSON body and no signature header at all. -/
def reqNoSig : Request :=
  ⟨ascii "POST",
   [(ascii "X-GitHub-Delivery", ascii "abc"), (ascii "X-GitHub-Event", ascii "package")],
   bodyContainer⟩

/-!
Correctness of the constant-time comparison and of signature verification.
-/

/-- Sanity checks of the JSON decoder model on concrete bodies: the nested field is
extracted, unknown fields are ignored, an absent field decodes to the empty string,
and syntax errors, type errors and trailing data are all rejected. -/
theorem decodePackageEvent_behaviour :
    decodePackageEvent (ascii "\x7b\"package\":\x7b\"package_type\":\"CONTAINER\"\x7d\x7d") =
      .ok ⟨ascii "CONTAINER"⟩
    ∧ decodePackageEvent (ascii "\x7b\"package\":\x7b\"package_type\":\"MAVEN\"\x7d,\"x\":[1,2.5e-3,true]\x7d") =
      .ok ⟨ascii "MAVEN"⟩
    ∧ decodePackageEvent (ascii "\x7b\"zen\":\"ok\"\x7d") = .ok ⟨[]⟩
    ∧ decodePackageEvent (ascii "not json") = .error (ascii "invalid JSON syntax")
    ∧ decodePackageEvent (ascii "") = .error (ascii "invalid JSON syntax")
    ∧ decodePackageEvent (ascii "\x7b\"package\": 5\x7d") =
      .error (ascii "cannot unmarshal value into field Package of object type")
    ∧ decodePackageEvent (ascii "\x7b\x7d trailing") =
      .error (ascii "invalid character after top-level value") := by
  decide

/-- A bitwise or of naturals is zero exactly when both operands are zero. -/
theorem lor_eq_zero_iff {a b : Nat} : a ||| b = 0 ↔ a = 0 ∧ b = 0 := by
  constructor
  · intro h
    constructor <;> (apply Nat.eq_of_testBit_eq; intro i)
    · have ht := congrArg (fun n => n.testBit i) h
      simp only [Nat.testBit_lor, Nat.zero_testBit, Bool.or_eq_false_iff] at ht
      simp [ht.1]
    · have ht := congrArg (fun n => n.testBit i) h
      simp only [Nat.testBit_lor, Nat.zero_testBit, Bool.or_eq_false_iff] at ht
      simp [ht.2]
  · rintro ⟨rfl, rfl⟩
    decide

/-- The or-accumulation of the constant-time compare is zero exactly when the
accumulator and every element are zero. -/
theorem foldl_or8_eq_zero (l : List Nat) :
    ∀ acc : Nat, (l.foldl or8 acc = 0 ↔ acc = 0 ∧ ∀ v ∈ l, v = 0) := by
  induction l with
  | nil => intro acc; simp
  | cons x xs ih =>
    intro acc
    rw [List.foldl_cons, ih (or8 acc x)]
    unfold or8
    rw [lor_eq_zero_iff]
    constructor
    · rintro ⟨⟨ha, hx⟩, hall⟩
      exact ⟨ha, by intro v hv; rcases List.mem_cons.mp hv with rfl | hv; exact hx; exact hall v hv⟩
    · rintro ⟨ha, hall⟩
      exact ⟨⟨ha, hall x (List.mem_cons_self x xs)⟩, fun v hv => hall v (List.mem_cons_of_mem x hv)⟩

/-- All bytewise xors of two equal-length sequences vanish exactly when the
sequences are equal. -/
theorem zipWith_xor8_eq_zero (x : List Nat) :
    ∀ y : List Nat, x.length = y.length →
      ((∀ v ∈ x.zipWith xor8 y, v = 0) ↔ x = y) := by
  induction x with
  | nil =>
    intro y hy
    cases y with
    | nil => simp
    | cons b bs => simp at hy
  | cons a as ih =>
    intro y hy
    cases y with
    | nil => simp at hy
    | cons b bs =>
      simp only [List.zipWith_cons_cons, List.mem_cons, List.cons.injEq]
      rw [List.length_cons, List.length_cons] at hy
      constructor
      · intro hall
        have h1 : xor8 a b = 0 := hall _ (Or.inl rfl)
        have h2 : as = bs := (ih bs (Nat.succ_injective hy)).mp (fun v hv => hall v (Or.inr hv))
        exact ⟨Nat.xor_eq_zero.mp h1, h2⟩
      · rintro ⟨rfl, rfl⟩
        intro v hv
        rcases hv with rfl | hv
        · exact Nat.xor_eq_zero.mpr rfl
        · exact ((ih as rfl).mpr rfl) v hv

/-- Go's `subtle.ConstantTimeCompare` (hence `hmac.Equal`) decides equality of the
two byte sequences. -/
theorem constantTimeCompare_iff_eq (x y : List Nat) :
    constantTimeCompare x y = true ↔ x = y := by
  unfold constantTimeCompare
  by_cases hl : x.length = y.length
  · rw [if_pos hl, beq_iff_eq, foldl_or8_eq_zero]
    constructor
    · intro h
      exact (zipWith_xor8_eq_zero x y hl).mp h.2
    · intro h
      exact ⟨rfl, (zipWith_xor8_eq_zero x y hl).mpr h⟩
  · rw [if_neg hl]
    simp only [Bool.false_eq_true, false_iff]
    exact fun hc => hl (by rw [hc])

/-- The lowercase hex digit byte map is injective. -/
theorem hexDigit_inj {m n : Nat} (h : hexDigit m = hexDigit n) : m = n := by
  unfold hexDigit at h
  split at h <;> split at h <;> omega

/-- Hex encoding is injective on byte sequences. -/
theorem hexEncode_inj (x : List Nat) : ∀ y, hexEncode x = hexEncode y → x = y := by
  induction x with
  | nil =>
    intro y h
    cases y with
    | nil => rfl
    | cons b bs => simp [hexEncode] at h
  | cons a as ih =>
    intro y h
    cases y with
    | nil => simp [hexEncode] at h
    | cons b bs =>
      simp only [hexEncode, List.flatMap_cons, List.cons_append, List.nil_append,
        List.cons.injEq] at h
      obtain ⟨h1, h2, h3⟩ := h
      have hd : a / 16 = b / 16 := hexDigit_inj h1
      have hm : a % 16 = b % 16 := hexDigit_inj h2
      have hab : a = b := by omega
      have : as = bs := ih bs (by simpa [hexEncode] using h3)
      rw [hab, this]

/-- Signature verification accepts exactly the correct tagged hex digest. -/
theorem verifySignature_iff (secret body sig : List Nat) :
    verifySignature secret sig body = true ↔ sig = correctSig secret body := by
  unfold verifySignature
  rw [show ascii "sha256=" ++ hexEncode (hmacSha256 secret body) = correctSig secret body from rfl]
  rw [constantTimeCompare_iff_eq]
  exact eq_comm

/-- C1: `verifySignature(header, B)` returns true exactly when the header is
"sha256=" followed by the lowercase hex HMAC-SHA256 of the body under the secret;
consequently any mutation of a correct signature is rejected, and any mutation of
the body that changes the HMAC digest makes verification of the original signature
fail; and the comparison is the constant-time `hmac.Equal`
(`constantTimeCompare`), not a short-circuiting string comparison. -/
theorem verifySignature_spec (secret body sig : List Nat) :
    (verifySignature secret sig body = true ↔ sig = correctSig secret body)
    ∧ (∀ sig', sig' ≠ correctSig secret body → verifySignature secret sig' body = false)
    ∧ (∀ body', hmacSha256 secret body' ≠ hmacSha256 secret body →
        verifySignature secret (correctSig secret body) body' = false)
    ∧ verifySignature secret sig body = constantTimeCompare (correctSig secret body) sig := by
  refine ⟨verifySignature_iff secret body sig, ?_, ?_, rfl⟩
  · intro sig' hne
    have := (verifySignature_iff secret body sig').not
    simp only [Bool.not_eq_true] at this
    exact this.mpr hne
  · intro body' hmac_ne
    have hcs : correctSig secret body ≠ correctSig secret body' := by
      intro hc
      unfold correctSig at hc
      exact hmac_ne (hexEncode_inj _ _ (List.append_cancel_left hc)).symm
    have := (verifySignature_iff secret body' (correctSig secret body)).not
    simp only [Bool.not_eq_true] at this
    exact this.mpr hcs

/-- Witness for C1 at concrete inputs: the correct signature verifies, a one-bit
mutation of the signature is rejected, and a one-bit mutation of the body (whose
digest differs) is rejected. -/
theorem verifySignature_spec_witness :
    verifySignature secretW sigContainer bodyContainer = true
    ∧ verifySignature secretW sigContainerFlip bodyContainer = false
    ∧ verifySignature secretW (correctSig secretW bodyContainer) bodyContainerFlip = false :=
  ⟨(verifySignature_spec secretW bodyContainer sigContainer).1.mpr (by decide),
   (verifySignature_spec secretW bodyContainer sigContainer).2.1 sigContainerFlip (by decide),
   (verifySignature_spec secretW bodyContainer sigContainer).2.2.1 bodyContainerFlip (by decide)⟩

/-!
Request-pipeline theorems.
-/

/-- The embedded `logRequest` returns the empty string exactly when both required headers are present. -/
theorem logRequest_eq_nil_iff (headers : List (List Nat × List Nat)) :
    logRequest headers = [] ↔
      (headersGet headers (ascii "X-GitHub-Delivery") ≠ []
       ∧ headersGet headers (ascii "X-GitHub-Event") ≠ []) := by
  simp only [logRequest]
  by_cases h : headersGet headers (ascii "X-GitHub-Delivery") = []
      ∨ headersGet headers (ascii "X-GitHub-Event") = []
  · rw [if_pos h]
    constructor
    · intro hc
      exfalso
      rw [show ascii "Either missing requestId: (" =
          69 :: ascii "ither missing requestId: (" from by decide] at hc
      simp at hc
    · rintro ⟨h1, h2⟩
      rcases h with h | h
      · exact absurd h h1
      · exact absurd h h2
  · rw [if_neg h]
    push_neg at h
    constructor
    · intro _
      exact h
    · intro _
      rfl

/-- C2: a POST with the required headers, a valid signature, and a well-formed JSON
body whose `package.package_type` is not CONTAINER (including when the field is
absent, in which case it decodes to the empty string) is not forwarded; the response
is exactly one `Message` diagnostic header plus a 204 status, with no body write. -/
theorem handlerPart_filtered_204 (cfg : Config) (req : Request) (ds : DownstreamResult)
    (ev : PackageEvent)
    (hm : req.method = ascii "POST")
    (hd : headersGet req.headers (ascii "X-GitHub-Delivery") ≠ [])
    (he : headersGet req.headers (ascii "X-GitHub-Event") ≠ [])
    (hs : verifySignature cfg.webhookSecret
        (headersGet req.headers (ascii "X-Hub-Signature-256")) req.body = true)
    (hj : decodePackageEvent req.body = .ok ev)
    (hne : ev.packageType ≠ containerType) :
    handlerPart cfg req ds =
      ⟨[.addHeader (ascii "Message") (filteredMsg ev.packageType), .writeHeader 204],
        none, [filteredMsg ev.packageType], false⟩ := by
  have hm1 : ¬(req.method = ascii "HEAD" ∨ req.method = ascii "GET") := by
    rw [hm]
    decide
  have herr : logRequest req.headers = [] := (logRequest_eq_nil_iff req.headers).mpr ⟨hd, he⟩
  simp only [handlerPart]
  rw [if_neg hm1, if_pos herr]
  simp only [handleRequestPart]
  rw [if_pos hs]
  simp only [hj]
  rw [if_neg hne]

/-- Witness for C2 at a concrete MAVEN-category request with a valid signature. -/
theorem handlerPart_filtered_204_witness :
    handlerPart cfgW (mkPost sigMaven bodyMaven) (.response 200) =
      ⟨[.addHeader (ascii "Message") (filteredMsg (ascii "MAVEN")), .writeHeader 204],
        none, [filteredMsg (ascii "MAVEN")], false⟩ :=
  handlerPart_filtered_204 cfgW (mkPost sigMaven bodyMaven) (.response 200) ⟨ascii "MAVEN"⟩
    (by decide) (by decide) (by decide) (by decide) (by decide) (by decide)

/-- C5: a GET or HEAD request is answered by `handleHeadAndGet`: every header
name/value pair is logged, the response is a bare 200 status, nothing is forwarded,
and the outcome is independent of the configuration (secret and relay URL), of the
request body, and of the downstream oracle. -/
theorem handlerPart_probe (cfg : Config) (req : Request) (ds : DownstreamResult)
    (h : req.method = ascii "GET" ∨ req.method = ascii "HEAD") :
    handlerPart cfg req ds = ⟨[.writeHeader 200], none, headerLogLines req.headers, false⟩
    ∧ ∀ (cfg' : Config) (b' : List Nat) (ds' : DownstreamResult),
        handlerPart cfg' ⟨req.method, req.headers, b'⟩ ds' = handlerPart cfg req ds := by
  have h' : req.method = ascii "HEAD" ∨ req.method = ascii "GET" := h.symm
  constructor
  · simp only [handlerPart]
    rw [if_pos h']
  · intro cfg' b' ds'
    simp only [handlerPart]
    rw [if_pos h', if_pos h']

/-- Witness for C5 at a concrete GET request, with the configuration, body and
downstream oracle varied. -/
theorem handlerPart_probe_witness :
    handlerPart cfgW ⟨ascii "GET", [(ascii "Accept", ascii "*/*")], []⟩ (.response 200) =
      ⟨[.writeHeader 200], none, headerLogLines [(ascii "Accept", ascii "*/*")], false⟩
    ∧ handlerPart ⟨[], []⟩ ⟨ascii "GET", [(ascii "Accept", ascii "*/*")], ascii "ignored"⟩
        (.transportError []) =
      handlerPart cfgW ⟨ascii "GET", [(ascii "Accept", ascii "*/*")], []⟩ (.response 200) :=
  ⟨(handlerPart_probe cfgW ⟨ascii "GET", [(ascii "Accept", ascii "*/*")], []⟩ (.response 200)
      (Or.inl rfl)).1,
   (handlerPart_probe cfgW ⟨ascii "GET", [(ascii "Accept", ascii "*/*")], []⟩ (.response 200)
      (Or.inl rfl)).2 ⟨[], []⟩ (ascii "ignored") (.transportError [])⟩

/-- C6: a non-probe request missing the delivery id or the event type header is
answered with `respondError` 400 (the `logRequest` error line); the outcome does not
depend on the configuration (hence not on the secret or any signature computation),
on the request body, or on the downstream oracle. -/
theorem handlerPart_missing_headers (cfg : Config) (req : Request) (ds : DownstreamResult)
    (hm : ¬(req.method = ascii "HEAD" ∨ req.method = ascii "GET"))
    (h : headersGet req.headers (ascii "X-GitHub-Delivery") = []
         ∨ headersGet req.headers (ascii "X-GitHub-Event") = []) :
    handlerPart cfg req ds = respondError (logRequest req.headers) 400
    ∧ (handlerPart cfg req ds).rw = httpError (logRequest req.headers) 400
    ∧ (handlerPart cfg req ds).forwarded = none
    ∧ ∀ (cfg' : Config) (b' : List Nat) (ds' : DownstreamResult),
        handlerPart cfg' ⟨req.method, req.headers, b'⟩ ds' = handlerPart cfg req ds := by
  have herr : logRequest req.headers ≠ [] := by
    intro hc
    rcases (logRequest_eq_nil_iff req.headers).mp hc with ⟨h1, h2⟩
    rcases h with h | h
    · exact h1 h
    · exact h2 h
  have hmain : handlerPart cfg req ds = respondError (logRequest req.headers) 400 := by
    simp only [handlerPart]
    rw [if_neg hm, if_neg herr]
  refine ⟨hmain, by rw [hmain]; rfl, by rw [hmain]; rfl, ?_⟩
  intro cfg' b' ds'
  have hmain' : handlerPart cfg' ⟨req.method, req.headers, b'⟩ ds' =
      respondError (logRequest req.headers) 400 := by
    simp only [handlerPart]
    rw [if_neg hm, if_neg herr]
  rw [hmain', hmain]

/-- Witness for C6 at a concrete request with a valid signature but no delivery id. -/
theorem handlerPart_missing_headers_witness :
    handlerPart cfgW reqMissing (.response 200) = respondError (logRequest reqMissing.headers) 400
    ∧ handlerPart ⟨[], []⟩ ⟨reqMissing.method, reqMissing.headers, ascii "other"⟩
        (.transportError []) = handlerPart cfgW reqMissing (.response 200) :=
  ⟨(handlerPart_missing_headers cfgW reqMissing (.response 200) (by decide) (by decide)).1,
   (handlerPart_missing_headers cfgW reqMissing (.response 200) (by decide)
      (by decide)).2.2.2 ⟨[], []⟩ (ascii "other") (.transportError [])⟩

/-- C7: a non-probe request with both required headers whose signature header does not
equal the computed signature (including an absent header) is answered with
`respondError` 401, with no forward and no JSON parsing, whatever the body. -/
theorem handlerPart_invalid_signature (cfg : Config) (req : Request) (ds : DownstreamResult)
    (hm : ¬(req.method = ascii "HEAD" ∨ req.method = ascii "GET"))
    (hd : headersGet req.headers (ascii "X-GitHub-Delivery") ≠ [])
    (he : headersGet req.headers (ascii "X-GitHub-Event") ≠ [])
    (hs : verifySignature cfg.webhookSecret
        (headersGet req.headers (ascii "X-Hub-Signature-256")) req.body = false) :
    handlerPart cfg req ds = respondError (ascii "Invalid Signature") 401 := by
  have herr : logRequest req.headers = [] := (logRequest_eq_nil_iff req.headers).mpr ⟨hd, he⟩
  simp only [handlerPart]
  rw [if_neg hm, if_pos herr]
  simp only [handleRequestPart]
  rw [if_neg (by simp [hs])]

/-- Witness for C7 at a concrete request whose signature header is absent entirely. -/
theorem handlerPart_invalid_signature_witness :
    handlerPart cfgW reqNoSig (.response 200) = respondError (ascii "Invalid Signature") 401 :=
  handlerPart_invalid_signature cfgW reqNoSig (.response 200)
    (by decide) (by decide) (by decide) (by decide)

/-- C8: with the required headers and a valid signature, a body that fails to decode
is answered with `respondError` 400 (naming the parse failure) and nothing is
forwarded; a body that decodes is forwarded exactly when its extracted
`package.package_type` field equals CONTAINER — the decoded view consists of that
single field, so nothing else in the body affects the decision. -/
theorem handlerPart_json_decode (cfg : Config) (req : Request) (ds : DownstreamResult)
    (hm : ¬(req.method = ascii "HEAD" ∨ req.method = ascii "GET"))
    (hd : headersGet req.headers (ascii "X-GitHub-Delivery") ≠ [])
    (he : headersGet req.headers (ascii "X-GitHub-Event") ≠ [])
    (hs : verifySignature cfg.webhookSecret
        (headersGet req.headers (ascii "X-Hub-Signature-256")) req.body = true) :
    (∀ e, decodePackageEvent req.body = .error e →
        handlerPart cfg req ds = respondError (ascii "Failed to parse JSON: " ++ e) 400)
    ∧ (∀ ev, decodePackageEvent req.body = .ok ev →
        ((handlerPart cfg req ds).forwarded = none ↔ ev.packageType ≠ containerType)) := by
  have herr : logRequest req.headers = [] := (logRequest_eq_nil_iff req.headers).mpr ⟨hd, he⟩
  have hred : handlerPart cfg req ds = handleRequestPart cfg req ds := by
    simp only [handlerPart]
    rw [if_neg hm, if_pos herr]
  constructor
  · intro e hj
    rw [hred]
    simp only [handleRequestPart]
    rw [if_pos hs]
    simp only [hj]
  · intro ev hj
    rw [hred]
    simp only [handleRequestPart]
    rw [if_pos hs]
    simp only [hj]
    by_cases hpt : ev.packageType = containerType
    · rw [if_pos hpt]
      cases ds with
      | transportError t => simp [hpt]
      | response c => simp [hpt]
    · rw [if_neg hpt]
      simp [hpt]

/-- Witness for C8 at a concrete non-JSON body with a valid signature. -/
theorem handlerPart_json_decode_witness :
    handlerPart cfgW (mkPost sigNotJson bodyNotJson) (.response 200) =
      respondError (ascii "Failed to parse JSON: " ++ ascii "invalid JSON syntax") 400 :=
  (handlerPart_json_decode cfgW (mkPost sigNotJson bodyNotJson) (.response 200)
    (by decide) (by decide) (by decide) (by decide)).1 (ascii "invalid JSON syntax") (by decide)

/-- C9: whenever the handler forwards, the outbound request is a POST to the
configured relay URL with the fixed User-Agent "Go WebHook Filter" and Content-Type
"application/json" headers, whose body is exactly the raw inbound body bytes — the
same bytes over which the signature was verified and from which the JSON view was
decoded (necessarily with category CONTAINER). -/
theorem handlerPart_forward_invariant (cfg : Config) (req : Request) (ds : DownstreamResult)
    (ob : Outbound) (h : (handlerPart cfg req ds).forwarded = some ob) :
    ob = mkOutbound cfg req.body
    ∧ verifySignature cfg.webhookSecret
        (headersGet req.headers (ascii "X-Hub-Signature-256")) req.body = true
    ∧ decodePackageEvent req.body = .ok ⟨containerType⟩ := by
  by_cases hm : req.method = ascii "HEAD" ∨ req.method = ascii "GET"
  · exfalso
    simp only [handlerPart] at h
    rw [if_pos hm] at h
    simp at h
  · by_cases herr : logRequest req.headers = []
    · have hred : handlerPart cfg req ds = handleRequestPart cfg req ds := by
        simp only [handlerPart]
        rw [if_neg hm, if_pos herr]
      rw [hred] at h
      by_cases hs : verifySignature cfg.webhookSecret
          (headersGet req.headers (ascii "X-Hub-Signature-256")) req.body = true
      · simp only [handleRequestPart] at h
        rw [if_pos hs] at h
        cases hj : decodePackageEvent req.body with
        | error e =>
          exfalso
          simp only [hj, respondError] at h
          exact Option.noConfusion h
        | ok ev =>
          obtain ⟨pt⟩ := ev
          simp only [hj] at h
          by_cases hpt : pt = containerType
          · subst hpt
            refine ⟨?_, hs, rfl⟩
            have hfwd : (match ds with
                | DownstreamResult.transportError errText =>
                  (⟨httpError (ascii "Error sending request: " ++ errText ++ [10]) 502,
                    some (mkOutbound cfg req.body),
                    [ascii "Error sending request: " ++ errText ++ [10]], true⟩ : HandlerResult)
                | DownstreamResult.response statusCode =>
                  ⟨(if statusCode < 200 ∨ 300 ≤ statusCode
                      then httpError (relayStatusMsg statusCode) 502 else []) ++
                    [RW.write successBody, RW.writeHeader 200],
                    some (mkOutbound cfg req.body), [], false⟩).forwarded =
                some (mkOutbound cfg req.body) := by
              cases ds with
              | transportError t => rfl
              | response c => rfl
            rw [if_pos rfl] at h
            rw [hfwd] at h
            exact (Option.some_inj.mp h).symm
          · exfalso
            rw [if_neg hpt] at h
            simp at h
      · exfalso
        simp only [handleRequestPart] at h
        rw [if_neg hs] at h
        simp [respondError] at h
    · exfalso
      simp only [handlerPart] at h
      rw [if_neg hm, if_neg herr] at h
      simp [respondError] at h

/-- Witness for C9 at a concrete forwarded CONTAINER request. -/
theorem handlerPart_forward_invariant_witness :
    mkOutbound cfgW bodyContainer = mkOutbound cfgW bodyContainer
    ∧ verifySignature secretW sigContainer bodyContainer = true
    ∧ decodePackageEvent bodyContainer = .ok ⟨containerType⟩ :=
  handlerPart_forward_invariant cfgW (mkPost sigContainer bodyContainer) (.response 200)
    (mkOutbound cfgW bodyContainer) (by decide)

/-- C3 evidence: at a concrete forwarded request whose outbound call fails with a
transport error, the unnamed handler writes the 502 bad-gateway error but then —
because `handleRequest` does not return after `respondError` — evaluates
`httpResponse.Body` / `httpResponse.StatusCode` on the nil response and panics
(`panicked = true`), instead of terminating immediately as the specification
requires. -/
theorem handlerPart_transport_error_panics :
    handlerPart cfgW (mkPost sigContainer bodyContainer)
        (.transportError (ascii "connection refused")) =
      ⟨httpError (ascii "Error sending request: connection refused" ++ [10]) 502,
        some (mkOutbound cfgW bodyContainer),
        [ascii "Error sending request: connection refused" ++ [10]], true⟩ := by decide

/-- C4: when the downstream response status lies outside [200,300), the handler
writes an `http.Error` 502 whose message names the downstream code, and then still
writes the success body and a final 200 status to the same response (the reference's
double-write quirk). -/
theorem handlerPart_bad_downstream (cfg : Config) (req : Request) (ev : PackageEvent)
    (statusCode : Nat)
    (hm : ¬(req.method = ascii "HEAD" ∨ req.method = ascii "GET"))
    (hd : headersGet req.headers (ascii "X-GitHub-Delivery") ≠ [])
    (he : headersGet req.headers (ascii "X-GitHub-Event") ≠ [])
    (hs : verifySignature cfg.webhookSecret
        (headersGet req.headers (ascii "X-Hub-Signature-256")) req.body = true)
    (hj : decodePackageEvent req.body = .ok ev)
    (hc : ev.packageType = containerType)
    (hbad : statusCode < 200 ∨ 300 ≤ statusCode) :
    handlerPart cfg req (.response statusCode) =
      ⟨httpError (relayStatusMsg statusCode) 502 ++ [.write successBody, .writeHeader 200],
        some (mkOutbound cfg req.body), [], false⟩ := by
  have herr : logRequest req.headers = [] := (logRequest_eq_nil_iff req.headers).mpr ⟨hd, he⟩
  simp only [handlerPart]
  rw [if_neg hm, if_pos herr]
  simp only [handleRequestPart]
  rw [if_pos hs]
  simp only [hj]
  rw [if_pos hc, if_pos hbad]

/-- Witness for C4 at a concrete CONTAINER request with a downstream 500. -/
theorem handlerPart_bad_downstream_witness :
    handlerPart cfgW (mkPost sigContainer bodyContainer) (.response 500) =
      ⟨httpError (relayStatusMsg 500) 502 ++ [.write successBody, .writeHeader 200],
        some (mkOutbound cfgW bodyContainer), [], false⟩ :=
  handlerPart_bad_downstream cfgW (mkPost sigContainer bodyContainer) ⟨containerType⟩ 500
    (by decide) (by decide) (by decide) (by decide) (by decide) (by decide) (by decide)

/-- C10 counterexample: the two handler implementations are not observationally
equivalent — on a GET request the unnamed handler answers with a bare 200 probe
response while the handler of src/github_webhook_filter_server.go answers with the
missing-headers 400 error. -/
theorem handlersNotEquivalent :
    (handlerGo cfgW ⟨ascii "GET", [], []⟩ (.response 200)).rw ≠
      (handlerPart cfgW ⟨ascii "GET", [], []⟩ (.response 200)).rw := by decide

/-- C10 (amended): for non-probe requests the two implementations make the same
forward decision and the same panic behaviour, and they produce identical responses
on the missing-header, invalid-signature and JSON-error reject paths; they are not
observationally equivalent in general (they differ on GET/HEAD requests and on the
filtered-out and forwarded-success response writes). -/
theorem handlersAgreeNonprobe (cfg : Config) (req : Request) (ds : DownstreamResult)
    (hm : ¬(req.method = ascii "HEAD" ∨ req.method = ascii "GET")) :
    (handlerGo cfg req ds).forwarded = (handlerPart cfg req ds).forwarded
    ∧ (handlerGo cfg req ds).panicked = (handlerPart cfg req ds).panicked
    ∧ (logRequest req.headers ≠ [] → handlerGo cfg req ds = handlerPart cfg req ds)
    ∧ (verifySignature cfg.webhookSecret
        (headersGet req.headers (ascii "X-Hub-Signature-256")) req.body = false →
        handlerGo cfg req ds = handlerPart cfg req ds)
    ∧ (∀ e, decodePackageEvent req.body = .error e →
        handlerGo cfg req ds = handlerPart cfg req ds) := by
  by_cases herr : logRequest req.headers = []
  · have hgo : handlerGo cfg req ds = handleRequestGo cfg req ds := by
      simp only [handlerGo]
      rw [if_pos herr]
    have hpart : handlerPart cfg req ds = handleRequestPart cfg req ds := by
      simp only [handlerPart]
      rw [if_neg hm, if_pos herr]
    by_cases hs : verifySignature cfg.webhookSecret
        (headersGet req.headers (ascii "X-Hub-Signature-256")) req.body = true
    · cases hj : decodePackageEvent req.body with
      | error e =>
        have e1 : handleRequestGo cfg req ds =
            respondError (ascii "Failed to parse JSON: " ++ e) 400 := by
          simp only [handleRequestGo]
          rw [if_pos hs]
          simp only [hj]
        have e2 : handleRequestPart cfg req ds =
            respondError (ascii "Failed to parse JSON: " ++ e) 400 := by
          simp only [handleRequestPart]
          rw [if_pos hs]
          simp only [hj]
        have heq : handlerGo cfg req ds = handlerPart cfg req ds := by
          rw [hgo, hpart, e1, e2]
        exact ⟨by rw [heq], by rw [heq], fun _ => heq, fun _ => heq, fun _ _ => heq⟩
      | ok ev =>
        by_cases hpt : ev.packageType = containerType
        · cases ds with
          | transportError t =>
            have e1 : handleRequestGo cfg req (.transportError t) =
                ⟨httpError (ascii "Error sending request: " ++ t ++ [10]) 502,
                  some (mkOutbound cfg req.body),
                  [ascii "Error sending request: " ++ t ++ [10]], true⟩ := by
              simp only [handleRequestGo]
              rw [if_pos hs]
              simp only [hj]
              rw [if_pos hpt]
            have e2 : handleRequestPart cfg req (.transportError t) =
                ⟨httpError (ascii "Error sending request: " ++ t ++ [10]) 502,
                  some (mkOutbound cfg req.body),
                  [ascii "Error sending request: " ++ t ++ [10]], true⟩ := by
              simp only [handleRequestPart]
              rw [if_pos hs]
              simp only [hj]
              rw [if_pos hpt]
            have heq : handlerGo cfg req (.transportError t) =
                handlerPart cfg req (.transportError t) := by
              rw [hgo, hpart, e1, e2]
            exact ⟨by rw [heq], by rw [heq], fun hne => absurd herr hne,
              fun hsf => by rw [hsf] at hs; exact Bool.noConfusion hs,
              fun e' hj' => Except.noConfusion hj'⟩
          | response c =>
            have e1 : handleRequestGo cfg req (.response c) =
                ⟨(if c < 200 ∨ 300 ≤ c then httpError (relayStatusMsg c) 502 else []) ++
                    [RW.writeHeader 200],
                  some (mkOutbound cfg req.body), [], false⟩ := by
              simp only [handleRequestGo]
              rw [if_pos hs]
              simp only [hj]
              rw [if_pos hpt]
            have e2 : handleRequestPart cfg req (.response c) =
                ⟨(if c < 200 ∨ 300 ≤ c then httpError (relayStatusMsg c) 502 else []) ++
                    [RW.write successBody, RW.writeHeader 200],
                  some (mkOutbound cfg req.body), [], false⟩ := by
              simp only [handleRequestPart]
              rw [if_pos hs]
              simp only [hj]
              rw [if_pos hpt]
            refine ⟨?_, ?_, fun hne => absurd herr hne,
              fun hsf => by rw [hsf] at hs; exact Bool.noConfusion hs,
              fun e' hj' => Except.noConfusion hj'⟩
            · simp only [hgo, hpart, e1, e2]
            · simp only [hgo, hpart, e1, e2]
        · have e1 : handleRequestGo cfg req ds =
              respondError (filteredMsg ev.packageType) 400 := by
            simp only [handleRequestGo]
            rw [if_pos hs]
            simp only [hj]
            rw [if_neg hpt]
          have e2 : handleRequestPart cfg req ds =
              ⟨[.addHeader (ascii "Message") (filteredMsg ev.packageType), .writeHeader 204],
                none, [filteredMsg ev.packageType], false⟩ := by
            simp only [handleRequestPart]
            rw [if_pos hs]
            simp only [hj]
            rw [if_neg hpt]
          refine ⟨?_, ?_, fun hne => absurd herr hne,
            fun hsf => by rw [hsf] at hs; exact Bool.noConfusion hs,
            fun e' hj' => Except.noConfusion hj'⟩
          · simp only [hgo, hpart, e1, e2, respondError]
          · simp only [hgo, hpart, e1, e2, respondError]
    · have e1 : handleRequestGo cfg req ds = respondError (ascii "Invalid Signature") 401 := by
        simp only [handleRequestGo]
        rw [if_neg hs]
      have e2 : handleRequestPart cfg req ds = respondError (ascii "Invalid Signature") 401 := by
        simp only [handleRequestPart]
        rw [if_neg hs]
      have heq : handlerGo cfg req ds = handlerPart cfg req ds := by
        rw [hgo, hpart, e1, e2]
      exact ⟨by rw [heq], by rw [heq], fun _ => heq, fun _ => heq, fun _ _ => heq⟩
  · have hgo : handlerGo cfg req ds = respondError (logRequest req.headers) 400 := by
      simp only [handlerGo]
      rw [if_neg herr]
    have hpart : handlerPart cfg req ds = respondError (logRequest req.headers) 400 := by
      simp only [handlerPart]
      rw [if_neg hm, if_neg herr]
    have heq : handlerGo cfg req ds = handlerPart cfg req ds := by
      rw [hgo, hpart]
    exact ⟨by rw [heq], by rw [heq], fun _ => heq, fun _ => heq, fun _ _ => heq⟩

/-- Witness for the amended C10 at a concrete non-probe request. -/
theorem handlersAgreeNonprobeWitness :
    (handlerGo cfgW (mkPost sigMaven bodyMaven) (.response 200)).forwarded =
      (handlerPart cfgW (mkPost sigMaven bodyMaven) (.response 200)).forwarded
    ∧ (handlerGo cfgW (mkPost sigMaven bodyMaven) (.response 200)).panicked =
      (handlerPart cfgW (mkPost sigMaven bodyMaven) (.response 200)).panicked :=
  ⟨(handlersAgreeNonprobe cfgW (mkPost sigMaven bodyMaven) (.response 200) (by decide)).1,
   (handlersAgreeNonprobe cfgW (mkPost sigMaven bodyMaven) (.response 200) (by decide)).2.1⟩
